import Mathlib

/-!
Verification of the Etherial Particles backend (src/backend/server.py).

The Python module is shallowly embedded: its pure functions become Lean
functions over exact rational coordinates, fallible external detector calls
become an explicit `DetectorCall` outcome (a successful value or a raised
exception), and the mutable process-wide `ConnectionManager` state becomes
explicit state passing through the per-message step functions.  Floating
point arithmetic of the source is modelled by exact arithmetic over `ℚ`
(with `√` over `ℝ` for the one square root the source takes).
-/

attribute [local semireducible] Rat.add Rat.sub Rat.mul Rat.inv

/-- A hand landmark dictionary as consumed by `recognize_gesture` and
`calculate_distance`: numeric `x` and `y` keys are required by the callers,
while `z` may be absent (`p.get("z", 0)` in the source treats a missing `z`
as 0).  The `id` key of the source dictionaries is positional (equal to the
index in the landmark list) and is not repeated here. -/
structure Landmark where
  x : ℚ
  y : ℚ
  z : Option ℚ
deriving DecidableEq

/-- A 2D point `{x: ..., y: ...}` as emitted for named keypoints. -/
structure Point2D where
  x : ℚ
  y : ℚ
deriving DecidableEq

/-- List indexing `landmarks[i]`.  Every index access in the embedded code
occurs under a length guard that matches exactly the situations in which the
Python indexing succeeds, so the default value is never observed. -/
def lm (landmarks : List Landmark) (i : Nat) : Landmark :=
  landmarks.getD i ⟨0, 0, none⟩

/-- The squared Euclidean distance of two landmarks, the radicand of
`calculate_distance` in the source:
`(p1["x"]-p2["x"])**2 + (p1["y"]-p2["y"])**2 + (p1.get("z",0)-p2.get("z",0))**2`
(squares written as products so the kernel can evaluate them). -/
def distSq (p1 p2 : Landmark) : ℚ :=
  (p1.x - p2.x) * (p1.x - p2.x) + (p1.y - p2.y) * (p1.y - p2.y) +
    (p1.z.getD 0 - p2.z.getD 0) * (p1.z.getD 0 - p2.z.getD 0)

/-- `calculate_distance(p1, p2)` from the source: the Euclidean distance
(including depth) between two landmark points, i.e. the square root of
`distSq`. -/
noncomputable def calculate_distance (p1 p2 : Landmark) : ℝ :=
  Real.sqrt ((distSq p1 p2 : ℚ) : ℝ)

/-- `is_finger_extended(tip_id, base_id)` from `recognize_gesture`: the tip's
`y` is strictly below the base's `y` value. -/
def is_finger_extended (landmarks : List Landmark) (tip_id base_id : Nat) : Bool :=
  decide ((lm landmarks tip_id).y < (lm landmarks base_id).y)

/-- Python's `abs` on a rational value, written with an explicit sign test
so the kernel can evaluate it.  `qabs_eq_abs` below identifies it with the
lattice absolute value. -/
def qabs (q : ℚ) : ℚ :=
  if q < 0 then -q else q

/-- `is_thumb_extended()` from `recognize_gesture`: the thumb extends
sideways, `abs(landmarks[4]["x"] - landmarks[2]["x"]) > 0.05`. -/
def is_thumb_extended (landmarks : List Landmark) : Bool :=
  decide (qabs ((lm landmarks 4).x - (lm landmarks 2).x) > 1 / 20)

/-- `recognize_gesture(landmarks)` from the source, translated clause by
clause.  The final pinch comparison `calculate_distance(...) < 0.05` is
rendered by the equivalent decidable comparison of the squared distance
against `0.05² = 1/400`; the theorem `calculate_distance_lt_pinch_iff` below
proves the two comparisons equivalent. -/
def recognize_gesture (landmarks : List Landmark) : String :=
  if landmarks.length < 21 then "UNKNOWN"
  else
    if !(is_finger_extended landmarks 8 5 || is_finger_extended landmarks 12 9 ||
         is_finger_extended landmarks 16 13 || is_finger_extended landmarks 20 17) then
      if is_thumb_extended landmarks then "THUMBS_UP" else "FIST"
    else if is_finger_extended landmarks 8 5 && is_finger_extended landmarks 12 9 &&
            !(is_finger_extended landmarks 16 13) && !(is_finger_extended landmarks 20 17) then
      "VICTORY"
    else if is_finger_extended landmarks 8 5 && !(is_finger_extended landmarks 12 9) &&
            !(is_finger_extended landmarks 16 13) && !(is_finger_extended landmarks 20 17) then
      "POINT"
    else if is_thumb_extended landmarks && is_finger_extended landmarks 8 5 &&
            is_finger_extended landmarks 12 9 && is_finger_extended landmarks 16 13 &&
            is_finger_extended landmarks 20 17 then
      "OPEN"
    else if is_finger_extended landmarks 8 5 && is_finger_extended landmarks 12 9 &&
            is_finger_extended landmarks 16 13 && !(is_finger_extended landmarks 20 17) then
      "THREE"
    else if !(is_finger_extended landmarks 8 5) && !(is_finger_extended landmarks 12 9) &&
            !(is_finger_extended landmarks 16 13) && is_finger_extended landmarks 20 17 then
      "PINKY"
    else if is_thumb_extended landmarks && is_finger_extended landmarks 20 17 &&
            !(is_finger_extended landmarks 8 5) && !(is_finger_extended landmarks 12 9) &&
            !(is_finger_extended landmarks 16 13) then
      "ROCK"
    else if distSq (lm landmarks 4) (lm landmarks 8) < 1 / 400 then
      "PINCH"
    else "OPEN"

/-- The decision table exactly as the specification words it, for inputs of
21 or more landmarks: a non-thumb finger is extended iff its tip's `y` is
strictly less than its base's `y` (tips 8/12/16/20, bases 5/9/13/17), the
thumb is extended iff `|x₄ - x₂| > 0.05`, and the eight rules are tried in
order with the first match winning. -/
def gestureSpec (landmarks : List Landmark) : String :=
  if !(is_finger_extended landmarks 8 5 || is_finger_extended landmarks 12 9 ||
       is_finger_extended landmarks 16 13 || is_finger_extended landmarks 20 17) then
    if is_thumb_extended landmarks then "THUMBS_UP" else "FIST"
  else if is_finger_extended landmarks 8 5 && is_finger_extended landmarks 12 9 &&
          !(is_finger_extended landmarks 16 13) && !(is_finger_extended landmarks 20 17) then
    "VICTORY"
  else if is_finger_extended landmarks 8 5 && !(is_finger_extended landmarks 12 9) &&
          !(is_finger_extended landmarks 16 13) && !(is_finger_extended landmarks 20 17) then
    "POINT"
  else if is_thumb_extended landmarks && is_finger_extended landmarks 8 5 &&
          is_finger_extended landmarks 12 9 && is_finger_extended landmarks 16 13 &&
          is_finger_extended landmarks 20 17 then
    "OPEN"
  else if is_finger_extended landmarks 8 5 && is_finger_extended landmarks 12 9 &&
          is_finger_extended landmarks 16 13 && !(is_finger_extended landmarks 20 17) then
    "THREE"
  else if !(is_finger_extended landmarks 8 5) && !(is_finger_extended landmarks 12 9) &&
          !(is_finger_extended landmarks 16 13) && is_finger_extended landmarks 20 17 then
    "PINKY"
  else if is_thumb_extended landmarks && is_finger_extended landmarks 20 17 &&
          !(is_finger_extended landmarks 8 5) && !(is_finger_extended landmarks 12 9) &&
          !(is_finger_extended landmarks 16 13) then
    "ROCK"
  else if distSq (lm landmarks 4) (lm landmarks 8) < 1 / 400 then
    "PINCH"
  else "OPEN"

/-- A 21-landmark hand in which no finger is extended: every tip sits at the
same height as its base and the thumb has no lateral offset. -/
def baseHand : List Landmark :=
  List.replicate 21 ⟨1 / 2, 3 / 5, some 0⟩

/-- A 21-landmark hand with only the index finger extended and the thumb tip
within pinch range of the index tip (vertical offset 0.01 < 0.05). -/
def pointPinchHand : List Landmark :=
  (baseHand.set 4 ⟨1 / 2, 1 / 2, some 0⟩).set 8 ⟨1 / 2, 49 / 100, some 0⟩

/-- A 21-landmark hand with only the middle finger extended; this finger
configuration matches none of rules 1-7 of the decision table and the thumb
tip coincides with the index tip, so the pinch check fires. -/
def middleOnlyHand : List Landmark :=
  baseHand.set 12 ⟨1 / 2, 2 / 5, some 0⟩

/-- The outcome of invoking an external capability provider: either the
value the provider returned, or a raised exception (of any kind), which the
facades catch. -/
inductive DetectorCall (α : Type) where
  | ok (val : α)
  | exn
deriving DecidableEq

/-- An `EmotionResult` dictionary. -/
structure EmotionResult where
  emotion : String
  confidence : ℚ
  all_emotions : List (String × ℚ)
deriving DecidableEq

/-- The neutral emotion result returned after a caught exception or an
empty/malformed detector result: `{"emotion": "neutral", "confidence": 0.0,
"all_emotions": {}}`. -/
def neutralEmotion : EmotionResult :=
  ⟨"neutral", 0, []⟩

/-- The result returned when the emotion detector is not initialized:
`{"emotion": "unknown", "confidence": 0.0, "all_emotions": {}}`. -/
def unknownEmotion : EmotionResult :=
  ⟨"unknown", 0, []⟩

/-- `max(emotions, key=emotions.get)` together with the subsequent lookup:
the first entry of maximal confidence in the (insertion-ordered) emotions
mapping, or `none` when the mapping is empty (in which case Python's `max`
raises `ValueError`, caught by the surrounding handler). -/
def dominantEmotion : List (String × ℚ) → Option (String × ℚ)
  | [] => none
  | e :: rest => some (rest.foldl (fun best p => if best.2 < p.2 then p else best) e)

/-- `analyze_emotion(image)` from the source.  The decoded image together
with the external FER call is abstracted into the call outcome: the
detector result is the list of detected faces, each carrying its `emotions`
confidence mapping.  When the detector singleton is `None` the function
returns the `unknown` result without calling it; a raised exception or an
empty result list falls through to the neutral result. -/
def analyze_emotion (available : Bool)
    (call : DetectorCall (List (List (String × ℚ)))) : EmotionResult :=
  if !available then unknownEmotion
  else
    match call with
    | .exn => neutralEmotion
    | .ok [] => neutralEmotion
    | .ok (emotions :: _) =>
      match dominantEmotion emotions with
      | none => neutralEmotion
      | some best => ⟨best.1, best.2, emotions⟩

/-- A pose landmark as produced by the pose detector; the `id` key of the
emitted dictionary equals the index in the list. -/
structure PoseLandmark where
  x : ℚ
  y : ℚ
  z : ℚ
  visibility : ℚ
deriving DecidableEq

/-- Pose list indexing `landmarks[i]`; every use sits under a length guard
mirroring exactly where the Python indexing succeeds. -/
def plm (landmarks : List PoseLandmark) (i : Nat) : PoseLandmark :=
  landmarks.getD i ⟨0, 0, 0, 0⟩

/-- The pose analysis dictionary.  Named keypoints are `Option` values:
`none` both for a key bound to Python `None` and for a key that is absent
from the failure dictionary `{"landmarks": [], "detected": False}` (in
which `landmarks` is empty and every named keypoint is missing). -/
structure PoseResult where
  detected : Bool
  landmarks : List PoseLandmark
  nose : Option Point2D
  left_hand : Option Point2D
  right_hand : Option Point2D
  left_shoulder : Option Point2D
  right_shoulder : Option Point2D
  left_hip : Option Point2D
  right_hip : Option Point2D
deriving DecidableEq

/-- The failure result `{"landmarks": [], "detected": False}`. -/
def emptyPose : PoseResult :=
  ⟨false, [], none, none, none, none, none, none, none⟩

/-- `analyze_pose(image)` from the source.  The call outcome is `none` when
`results.pose_landmarks` is absent.  On a detected pose the source reads
`landmarks[0]`, `landmarks[11]` and `landmarks[12]` unconditionally while
building the result dictionary, so any landmark list shorter than 13 raises
`IndexError`, which the surrounding `except` converts to the empty result;
the `12 < length` guard below models exactly that.  The hand and hip
keypoints are each guarded by their own length test in the source. -/
def analyze_pose (available : Bool)
    (call : DetectorCall (Option (List PoseLandmark))) : PoseResult :=
  if !available then emptyPose
  else
    match call with
    | .exn => emptyPose
    | .ok none => emptyPose
    | .ok (some lms) =>
      if 12 < lms.length then
        { detected := true
          landmarks := lms
          nose := some ⟨(plm lms 0).x, (plm lms 0).y⟩
          left_hand := if 15 < lms.length then some ⟨(plm lms 15).x, (plm lms 15).y⟩ else none
          right_hand := if 16 < lms.length then some ⟨(plm lms 16).x, (plm lms 16).y⟩ else none
          left_shoulder := some ⟨(plm lms 11).x, (plm lms 11).y⟩
          right_shoulder := some ⟨(plm lms 12).x, (plm lms 12).y⟩
          left_hip := if 23 < lms.length then some ⟨(plm lms 23).x, (plm lms 23).y⟩ else none
          right_hip := if 24 < lms.length then some ⟨(plm lms 24).x, (plm lms 24).y⟩ else none }
      else emptyPose

/-- A face-mesh landmark; the `id` key equals the index in the list. -/
structure MeshLandmark where
  x : ℚ
  y : ℚ
  z : ℚ
deriving DecidableEq

/-- Face-mesh list indexing `landmarks[i]`; used only under the length
guard below. -/
def flm (landmarks : List MeshLandmark) (i : Nat) : MeshLandmark :=
  landmarks.getD i ⟨0, 0, 0⟩

/-- The derived facial features of a detected face. -/
structure FaceFeatures where
  mouth_open : Bool
  left_eye_open : Bool
  right_eye_open : Bool
  eyebrows_raised : Bool
  face_center : Point2D
  nose_tip : Point2D
  chin : Point2D
  left_eye : Point2D
  right_eye : Point2D
  mouth_center : Point2D
deriving DecidableEq

/-- The face-mesh analysis dictionary; on failure `landmark_count` and
`features` are absent, modelled as `0` and `none`. -/
structure FaceMeshResult where
  detected : Bool
  landmark_count : Nat
  landmarks : List MeshLandmark
  features : Option FaceFeatures
deriving DecidableEq

/-- The failure result `{"detected": False, "landmarks": []}`. -/
def emptyFaceMesh : FaceMeshResult :=
  ⟨false, 0, [], none⟩

/-- `analyze_face_mesh(image)` from the source.  The call outcome carries
`results.multi_face_landmarks` as a list of faces (empty when absent).  The
feature extraction reads landmark indices up to 386 unconditionally, so a
face with 386 or fewer landmarks raises `IndexError`, caught by the
surrounding `except` and converted to the empty result; the `386 < length`
guard models exactly that.  Only the first 50 landmarks are kept in the
payload. -/
def analyze_face_mesh (available : Bool)
    (call : DetectorCall (List (List MeshLandmark))) : FaceMeshResult :=
  if !available then emptyFaceMesh
  else
    match call with
    | .exn => emptyFaceMesh
    | .ok [] => emptyFaceMesh
    | .ok (f :: _) =>
      if 386 < f.length then
        { detected := true
          landmark_count := f.length
          landmarks := f.take 50
          features := some
            { mouth_open := decide (qabs ((flm f 13).y - (flm f 14).y) > 3 / 100)
              left_eye_open := decide (qabs ((flm f 159).y - (flm f 145).y) > 3 / 200)
              right_eye_open := decide (qabs ((flm f 386).y - (flm f 374).y) > 3 / 200)
              eyebrows_raised := decide ((flm f 70).y < 1 / 4) || decide ((flm f 300).y < 1 / 4)
              face_center := ⟨(flm f 1).x, (flm f 1).y⟩
              nose_tip := ⟨(flm f 4).x, (flm f 4).y⟩
              chin := ⟨(flm f 152).x, (flm f 152).y⟩
              left_eye := ⟨(flm f 33).x, (flm f 33).y⟩
              right_eye := ⟨(flm f 263).x, (flm f 263).y⟩
              mouth_center := ⟨((flm f 13).x + (flm f 14).x) / 2,
                               ((flm f 13).y + (flm f 14).y) / 2⟩ } }
      else emptyFaceMesh

/-- One raw hand as delivered by the hand detector: its 21-point landmark
sequence and the handedness label from the parallel classification channel
(`none` when `results.multi_handedness` is absent, in which case the source
keeps the default label `Unknown`). -/
structure HandInput where
  landmarks : List Landmark
  handedness : Option String

/-- One entry of the `hands` list in the analysis response. -/
structure HandObservation where
  handedness : String
  landmarks : List Landmark
  gesture : String
  palm_center : Point2D
  index_tip : Point2D
  thumb_tip : Point2D
  pinch_distance : ℝ

/-- The hand analysis dictionary; on failure `hand_count` is absent,
modelled as `0`. -/
structure HandsResult where
  detected : Bool
  hand_count : Nat
  hands : List HandObservation

/-- The failure result `{"hands": [], "detected": False}`. -/
def emptyHands : HandsResult :=
  ⟨false, 0, []⟩

/-- One iteration of the per-hand loop of `analyze_hands`: the source reads
`landmarks[0]`, `landmarks[8]` and `landmarks[4]` unconditionally, so a
hand with fewer than 9 landmarks raises `IndexError`; `none` models that
exception, which aborts the whole analysis. -/
noncomputable def buildHand (h : HandInput) : Option HandObservation :=
  if 8 < h.landmarks.length then
    some
      { handedness := h.handedness.getD "Unknown"
        landmarks := h.landmarks
        gesture := recognize_gesture h.landmarks
        palm_center := ⟨(lm h.landmarks 0).x, (lm h.landmarks 0).y⟩
        index_tip := ⟨(lm h.landmarks 8).x, (lm h.landmarks 8).y⟩
        thumb_tip := ⟨(lm h.landmarks 4).x, (lm h.landmarks 4).y⟩
        pinch_distance := calculate_distance (lm h.landmarks 4) (lm h.landmarks 8) }
  else none

/-- `analyze_hands(image)` from the source.  The call outcome carries
`results.multi_hand_landmarks` paired with the handedness channel (the
empty list when no hands are detected).  A raised exception anywhere in the
loop — including the `IndexError` of `buildHand` — is caught and converted
to the empty result. -/
noncomputable def analyze_hands (available : Bool)
    (call : DetectorCall (List HandInput)) : HandsResult :=
  if !available then emptyHands
  else
    match call with
    | .exn => emptyHands
    | .ok inputs =>
      match inputs.mapM buildHand with
      | none => emptyHands
      | some hands => ⟨decide (0 < hands.length), hands.length, hands⟩

/-- A detected pose with exactly 10 landmarks. -/
def tenPose : List PoseLandmark :=
  List.replicate 10 ⟨1 / 2, 1 / 2, 0, 1⟩

/-- A detected pose with exactly 13 landmarks (covering the unconditionally
accessed indices 0, 11 and 12 but none of the guarded ones). -/
def thirteenPose : List PoseLandmark :=
  List.replicate 13 ⟨1 / 2, 1 / 2, 0, 1⟩

/-- The mutable result cache of the process-wide `ConnectionManager`: the
fields of `ConnectionManager.__init__` touched by frame analysis.  The
initial `last_pose = {}` is modelled by the empty pose result; the live
connection list is modelled separately by `broadcast`, and `last_beat` is
never written by any handler in the source. -/
structure ManagerState where
  last_emotion : EmotionResult
  last_pose : PoseResult
deriving DecidableEq

/-- The manager cache as initialized by `ConnectionManager.__init__`. -/
def initialManager : ManagerState :=
  ⟨neutralEmotion, emptyPose⟩

/-- The analysis flags of a `frame` message: `data.get("analyze_emotion",
False)` and so on, with hands defaulting to enabled. -/
structure FrameFlags where
  emotionFlag : Bool
  poseFlag : Bool
  faceMeshFlag : Bool
  handsFlag : Bool

/-- The behaviour of the external detectors on the one decoded frame of a
`frame` message: per modality, whether its provider is initialized and what
invoking it returns. -/
structure FrameEnv where
  emotionAvailable : Bool
  emotionCall : DetectorCall (List (List (String × ℚ)))
  poseAvailable : Bool
  poseCall : DetectorCall (Option (List PoseLandmark))
  faceAvailable : Bool
  faceCall : DetectorCall (List (List MeshLandmark))
  handsAvailable : Bool
  handsCall : DetectorCall (List HandInput)

/-- The aggregated `{"type": "analysis", ...}` response; each modality key
is present exactly when that modality was requested. -/
structure AnalysisResponse where
  emotion : Option EmotionResult
  pose : Option PoseResult
  face_mesh : Option FaceMeshResult
  hands : Option HandsResult

/-- The body of the `msg_type == "frame"` branch of `websocket_endpoint`
after a successful image decode: run each requested modality through its
facade, record emotion and pose results unconditionally in the manager
cache, and assemble the aggregate response. -/
noncomputable def handle_frame (st : ManagerState) (flags : FrameFlags) (env : FrameEnv) :
    ManagerState × AnalysisResponse :=
  let emotionRes := if flags.emotionFlag
    then some (analyze_emotion env.emotionAvailable env.emotionCall) else none
  let poseRes := if flags.poseFlag
    then some (analyze_pose env.poseAvailable env.poseCall) else none
  let faceRes := if flags.faceMeshFlag
    then some (analyze_face_mesh env.faceAvailable env.faceCall) else none
  let handsRes := if flags.handsFlag
    then some (analyze_hands env.handsAvailable env.handsCall) else none
  (⟨emotionRes.getD st.last_emotion, poseRes.getD st.last_pose⟩,
   ⟨emotionRes, poseRes, faceRes, handsRes⟩)

/-- One inbound JSON object of the primary websocket channel, classified by
its `type` key.  A `frame` message carries the outcome of decoding its
image payload (an error message when `decode_base64_image` raises) and the
frame's analysis flags and detector behaviour; `other` covers every message
whose `type` is neither `frame` nor `ping`, including a missing `type`. -/
inductive ClientMessage where
  | frame (decode : Except String Unit) (flags : FrameFlags) (env : FrameEnv)
  | ping
  | other (msgType : Option String)

/-- One outbound JSON object of the primary websocket channel. -/
inductive ServerMessage where
  | analysis (response : AnalysisResponse)
  | pong
  | errorMsg (message : String)

/-- One iteration of the `while True` receive loop of `websocket_endpoint`
for a successfully received JSON message: the new manager state, the
messages sent back to this connection, and whether the loop continues
(the handler closes the connection only on transport failure, which is
outside this step). -/
noncomputable def handle_message (st : ManagerState) (msg : ClientMessage) :
    ManagerState × List ServerMessage × Bool :=
  match msg with
  | .frame (Except.error e) _ _ => (st, [ServerMessage.errorMsg e], true)
  | .frame (Except.ok _) flags env =>
    let r := handle_frame st flags env
    (r.1, [ServerMessage.analysis r.2], true)
  | .ping => (st, [ServerMessage.pong], true)
  | .other _ => (st, [], true)

/-- `ConnectionManager.broadcast(message)`: iterate over the registered
connections in order and attempt one `send_json` per connection, swallowing
any exception.  Connections are identified by opaque numbers and the
transport behaviour by the outcome of each send; the result records, per
connection in iteration order, whether its delivery attempt succeeded. -/
def broadcast (conns : List Nat) (send : Nat → DetectorCall Unit) : List (Nat × Bool) :=
  conns.map fun c => (c, match send c with | .ok _ => true | .exn => false)

/-- The tempo read by `beats_websocket` from the first client message:
`data.get("tempo", 120)` — the default applies only when the `tempo` key is
absent. -/
def readTempo (msg : Option ℚ) : ℚ :=
  msg.getD 120

/-- `beat_interval = 60.0 / tempo` in `beats_websocket`; `none` models the
`ZeroDivisionError` raised for tempo 0, which terminates the session. -/
def beat_interval (tempo : ℚ) : Option ℚ :=
  if tempo = 0 then none else some (60 / tempo)

/-- A manager cache holding a previously successful emotion result. -/
def happyState : ManagerState :=
  ⟨⟨"happy", 9 / 10, [("happy", 9 / 10)]⟩, emptyPose⟩

/-- A frame request asking for emotion analysis only. -/
def emotionOnlyFlags : FrameFlags :=
  ⟨true, false, false, false⟩

/-- A frame on which every detector call raises. -/
def failingEnv : FrameEnv :=
  ⟨true, DetectorCall.exn, true, DetectorCall.exn, true, DetectorCall.exn,
   true, DetectorCall.exn⟩

/-- A transport in which sending to connection 2 raises and every other
send succeeds. -/
def failSecond : Nat → DetectorCall Unit :=
  fun c => if c = 2 then DetectorCall.exn else DetectorCall.ok ()

theorem qabs_eq_abs (q : ℚ) : qabs q = |q| := by
  unfold qabs
  split_ifs with h
  · exact (abs_of_neg h).symm
  · exact (abs_of_nonneg (not_lt.mp h)).symm

theorem calculate_distance_lt_pinch_iff (p1 p2 : Landmark) :
    calculate_distance p1 p2 < 1 / 20 ↔ distSq p1 p2 < 1 / 400 := by
  unfold calculate_distance
  rw [Real.sqrt_lt' (by norm_num : (0 : ℝ) < 1 / 20)]
  have h : ((1 : ℝ) / 20) ^ 2 = ((1 / 400 : ℚ) : ℝ) := by norm_num
  rw [h]
  exact Rat.cast_lt

/-- C1: for every input of 21 or more landmarks, `recognize_gesture` returns
exactly the label of the fixed decision table evaluated in order with the
first match winning, with finger extension and thumb extension defined as
the specification states them. -/
theorem recognize_gesture_matches_table (l : List Landmark) (h : 21 ≤ l.length) :
    recognize_gesture l = gestureSpec l := by
  unfold recognize_gesture gestureSpec
  rw [if_neg (by omega)]

/-- C1 witness: the table agrees with the code on a concrete 21-landmark
hand. -/
theorem recognize_gesture_matches_table_witness :
    21 ≤ baseHand.length ∧ recognize_gesture baseHand = gestureSpec baseHand :=
  ⟨by decide, recognize_gesture_matches_table baseHand (by decide)⟩

/-- C4 counterexample: a 21-landmark hand with thumb-index distance 0.01
(< 0.05) and neither middle nor ring nor pinky extended — i.e. no finger
other than the thumb-index pinch pair extended — is classified `POINT`,
not `PINCH`, because rule 3 of the decision table fires before the pinch
check is ever reached. -/
theorem pinch_claim_counterexample :
    calculate_distance (lm pointPinchHand 4) (lm pointPinchHand 8) < 1 / 20 ∧
    is_finger_extended pointPinchHand 12 9 = false ∧
    is_finger_extended pointPinchHand 16 13 = false ∧
    is_finger_extended pointPinchHand 20 17 = false ∧
    21 ≤ pointPinchHand.length ∧
    recognize_gesture pointPinchHand = "POINT" ∧
    recognize_gesture pointPinchHand ≠ "PINCH" :=
  ⟨(calculate_distance_lt_pinch_iff _ _).mpr (by decide), by decide, by decide,
   by decide, by decide, by decide, by decide⟩

/-- C4 amended: `calculate_distance` of a thumb tip at (0,0,0) and an index
tip at (0.03,0.04,0) is exactly 0.05; and `recognize_gesture` returns
`PINCH` on a 21-landmark input with thumb-index distance below 0.05 exactly
when the extended-finger configuration matches none of rules 1-7 of the
decision table (at least one non-thumb finger extended, and none of the
VICTORY / POINT / OPEN / THREE / PINKY / ROCK combinations holds) — not
merely when no finger besides the pinch pair is extended. -/
theorem pinch_distance_and_fallthrough :
    calculate_distance ⟨0, 0, some 0⟩ ⟨3 / 100, 4 / 100, some 0⟩ = 1 / 20 ∧
    ∀ l : List Landmark, 21 ≤ l.length →
      (is_finger_extended l 8 5 || is_finger_extended l 12 9 ||
        is_finger_extended l 16 13 || is_finger_extended l 20 17) = true →
      (is_finger_extended l 8 5 && is_finger_extended l 12 9 &&
        !(is_finger_extended l 16 13) && !(is_finger_extended l 20 17)) = false →
      (is_finger_extended l 8 5 && !(is_finger_extended l 12 9) &&
        !(is_finger_extended l 16 13) && !(is_finger_extended l 20 17)) = false →
      (is_thumb_extended l && is_finger_extended l 8 5 && is_finger_extended l 12 9 &&
        is_finger_extended l 16 13 && is_finger_extended l 20 17) = false →
      (is_finger_extended l 8 5 && is_finger_extended l 12 9 &&
        is_finger_extended l 16 13 && !(is_finger_extended l 20 17)) = false →
      (!(is_finger_extended l 8 5) && !(is_finger_extended l 12 9) &&
        !(is_finger_extended l 16 13) && is_finger_extended l 20 17) = false →
      (is_thumb_extended l && is_finger_extended l 20 17 && !(is_finger_extended l 8 5) &&
        !(is_finger_extended l 12 9) && !(is_finger_extended l 16 13)) = false →
      calculate_distance (lm l 4) (lm l 8) < 1 / 20 →
      recognize_gesture l = "PINCH" := by
  constructor
  · unfold calculate_distance
    have h : (distSq ⟨0, 0, some 0⟩ ⟨3 / 100, 4 / 100, some 0⟩ : ℚ) = 1 / 400 := by decide
    rw [h]
    have h2 : ((1 / 400 : ℚ) : ℝ) = (1 / 20 : ℝ) ^ 2 := by norm_num
    rw [h2, Real.sqrt_sq (by norm_num : (0 : ℝ) ≤ 1 / 20)]
  · intro l hlen hAny hV hP hO hT hK hR hdist
    unfold recognize_gesture
    rw [if_neg (by omega)]
    simp only [hAny, hV, hP, hO, hT, hK, hR, Bool.not_true, Bool.false_eq_true,
      if_false, if_true]
    rw [if_pos ((calculate_distance_lt_pinch_iff _ _).mp hdist)]

/-- C4 amended witness: a hand with only the middle finger extended and the
thumb tip coinciding with the index tip resolves to `PINCH`. -/
theorem pinch_distance_and_fallthrough_witness :
    21 ≤ middleOnlyHand.length ∧ recognize_gesture middleOnlyHand = "PINCH" :=
  ⟨by decide,
   pinch_distance_and_fallthrough.2 middleOnlyHand (by decide) (by decide) (by decide)
     (by decide) (by decide) (by decide) (by decide) (by decide)
     ((calculate_distance_lt_pinch_iff _ _).mpr (by decide))⟩

/-- C6: on every input of fewer than 21 landmarks, `recognize_gesture`
returns `UNKNOWN` (and, being a total function, never raises). -/
theorem recognize_gesture_short_unknown (l : List Landmark) (h : l.length < 21) :
    recognize_gesture l = "UNKNOWN" := by
  unfold recognize_gesture
  rw [if_pos h]

/-- C6 witness: the empty landmark list is classified `UNKNOWN`. -/
theorem recognize_gesture_short_unknown_witness :
    ([] : List Landmark).length < 21 ∧ recognize_gesture [] = "UNKNOWN" :=
  ⟨by decide, recognize_gesture_short_unknown [] (by decide)⟩

/-- C10: `recognize_gesture` is a total function on landmark lists whose
entries carry numeric `x` and `y` (with `z` optional, treated as 0 in the
distance computation), and its result is always one of the ten labels. -/
theorem recognize_gesture_label_range (l : List Landmark) :
    recognize_gesture l ∈
      ["FIST", "OPEN", "POINT", "VICTORY", "THUMBS_UP",
       "THREE", "PINKY", "ROCK", "PINCH", "UNKNOWN"] := by
  unfold recognize_gesture
  split_ifs <;> decide

/-- C3 counterexample: when the emotion detector is unavailable (not
initialized), `analyze_emotion` returns the `unknown` result, not the
neutral result the claim demands. -/
theorem emotion_unavailable_counterexample :
    analyze_emotion false (DetectorCall.ok []) ≠ neutralEmotion ∧
    (analyze_emotion false (DetectorCall.ok [])).emotion = "unknown" :=
  ⟨by decide, rfl⟩

/-- C3 amended: on failure no facade propagates the failure, but the empty
results differ by failure mode for emotion: an unavailable detector yields
`{"emotion": "unknown", "confidence": 0.0}` while a raised exception, an
empty detector result, or an empty emotions mapping yields the neutral
`{"emotion": "neutral", "confidence": 0.0}`; the pose, face-mesh and hand
facades return their `detected: false` empty results on unavailability,
exception, or no detection alike. -/
theorem facade_failure_neutrality :
    (∀ call, analyze_emotion false call = unknownEmotion) ∧
    analyze_emotion true DetectorCall.exn = neutralEmotion ∧
    analyze_emotion true (DetectorCall.ok []) = neutralEmotion ∧
    (∀ rest, analyze_emotion true (DetectorCall.ok ([] :: rest)) = neutralEmotion) ∧
    (∀ call, analyze_pose false call = emptyPose) ∧
    analyze_pose true DetectorCall.exn = emptyPose ∧
    analyze_pose true (DetectorCall.ok none) = emptyPose ∧
    (∀ call, analyze_face_mesh false call = emptyFaceMesh) ∧
    analyze_face_mesh true DetectorCall.exn = emptyFaceMesh ∧
    analyze_face_mesh true (DetectorCall.ok []) = emptyFaceMesh ∧
    (∀ call, analyze_hands false call = emptyHands) ∧
    analyze_hands true DetectorCall.exn = emptyHands ∧
    analyze_hands true (DetectorCall.ok []) = emptyHands :=
  ⟨fun _ => rfl, rfl, rfl, fun _ => rfl, fun _ => rfl, rfl, rfl,
   fun _ => rfl, rfl, rfl, fun _ => rfl, rfl, rfl⟩

/-- C8 counterexample: a detected pose with exactly 10 landmarks does not
produce a partial result — the unconditional access to landmark index 11
raises, the handler catches it, and the whole result degrades to the empty
`detected: false` dictionary, so `nose` is absent even though its required
index 0 is covered by the landmark count. -/
theorem pose_ten_landmarks_counterexample :
    tenPose.length = 10 ∧ 0 < tenPose.length ∧
    analyze_pose true (DetectorCall.ok (some tenPose)) = emptyPose ∧
    (analyze_pose true (DetectorCall.ok (some tenPose))).nose = none ∧
    (analyze_pose true (DetectorCall.ok (some tenPose))).detected = false :=
  ⟨by decide, by decide, by decide, by decide, by decide⟩

/-- C8 amended: a pose analysis with 12 or fewer landmarks (in particular
with only 10) returns the empty `detected: false` result with every named
keypoint absent, because indices 0, 11 and 12 are read unconditionally; for
landmark counts above 12 the result is detected and nose and both
shoulders are always present, while each hand and hip keypoint is present
exactly when the landmark count covers its required index (15/16 for
hands, 23/24 for hips). -/
theorem pose_named_keypoints_amended :
    (∀ lms : List PoseLandmark, lms.length ≤ 12 →
      analyze_pose true (DetectorCall.ok (some lms)) = emptyPose) ∧
    (∀ lms : List PoseLandmark, 12 < lms.length →
      (analyze_pose true (DetectorCall.ok (some lms))).detected = true ∧
      (analyze_pose true (DetectorCall.ok (some lms))).nose.isSome = true ∧
      (analyze_pose true (DetectorCall.ok (some lms))).left_shoulder.isSome = true ∧
      (analyze_pose true (DetectorCall.ok (some lms))).right_shoulder.isSome = true ∧
      (analyze_pose true (DetectorCall.ok (some lms))).left_hand.isSome
        = decide (15 < lms.length) ∧
      (analyze_pose true (DetectorCall.ok (some lms))).right_hand.isSome
        = decide (16 < lms.length) ∧
      (analyze_pose true (DetectorCall.ok (some lms))).left_hip.isSome
        = decide (23 < lms.length) ∧
      (analyze_pose true (DetectorCall.ok (some lms))).right_hip.isSome
        = decide (24 < lms.length)) := by
  constructor
  · intro lms h
    simp only [analyze_pose, Bool.not_true, Bool.false_eq_true, if_false]
    rw [if_neg (by omega)]
  · intro lms h
    simp only [analyze_pose, Bool.not_true, Bool.false_eq_true, if_false, if_pos h]
    by_cases h15 : 15 < lms.length <;> by_cases h16 : 16 < lms.length <;>
      by_cases h23 : 23 < lms.length <;> by_cases h24 : 24 < lms.length <;>
      simp [h15, h16, h23, h24]

/-- C8 amended witness: the 10-landmark pose degrades to the empty result,
and a 13-landmark pose is detected with its nose keypoint present. -/
theorem pose_named_keypoints_amended_witness :
    (tenPose.length ≤ 12 ∧ analyze_pose true (DetectorCall.ok (some tenPose)) = emptyPose) ∧
    (12 < thirteenPose.length ∧
      (analyze_pose true (DetectorCall.ok (some thirteenPose))).nose.isSome = true) :=
  ⟨⟨by decide, pose_named_keypoints_amended.1 tenPose (by decide)⟩,
   ⟨by decide, (pose_named_keypoints_amended.2 thirteenPose (by decide)).2.1⟩⟩

/-- C2 counterexample: with a cached successful emotion result, a frame
whose emotion analysis fails (the detector call raises) overwrites
`last_emotion` with the neutral failure placeholder — the cached value is
not preserved across the failed analysis. -/
theorem cache_failure_overwrite_counterexample :
    (handle_frame happyState emotionOnlyFlags failingEnv).1.last_emotion = neutralEmotion ∧
    happyState.last_emotion ≠ neutralEmotion :=
  ⟨rfl, by decide⟩

/-- C2 amended: `last_emotion` and `last_pose` are overwritten with the
modality's analysis result on every frame that requests that modality —
successful or not, failure placeholders included — and are left unchanged
exactly when the modality is not requested; they hold the most recent
result, not the most recent successful one. -/
theorem cache_update_policy (st : ManagerState) (flags : FrameFlags) (env : FrameEnv) :
    (flags.emotionFlag = true →
      (handle_frame st flags env).1.last_emotion
        = analyze_emotion env.emotionAvailable env.emotionCall) ∧
    (flags.emotionFlag = false →
      (handle_frame st flags env).1.last_emotion = st.last_emotion) ∧
    (flags.poseFlag = true →
      (handle_frame st flags env).1.last_pose
        = analyze_pose env.poseAvailable env.poseCall) ∧
    (flags.poseFlag = false →
      (handle_frame st flags env).1.last_pose = st.last_pose) := by
  refine ⟨?_, ?_, ?_, ?_⟩ <;> intro h <;> simp [handle_frame, h]

/-- C2 amended witness: the overwrite-on-request behaviour at a concrete
cached state, flag set and failing detector. -/
theorem cache_update_policy_witness :
    emotionOnlyFlags.emotionFlag = true ∧
    (handle_frame happyState emotionOnlyFlags failingEnv).1.last_emotion
      = analyze_emotion failingEnv.emotionAvailable failingEnv.emotionCall :=
  ⟨rfl, (cache_update_policy happyState emotionOnlyFlags failingEnv).1 rfl⟩

/-- C5: `broadcast` attempts delivery to every currently registered
connection in order, and a failing send on one connection is swallowed
without preventing the delivery attempt — and, when its own send succeeds,
the delivery — to every other connection. -/
theorem broadcast_attempts_all (conns : List Nat) (send : Nat → DetectorCall Unit) :
    (broadcast conns send).map Prod.fst = conns ∧
    ∀ c, c ∈ conns → send c = DetectorCall.ok () → (c, true) ∈ broadcast conns send := by
  constructor
  · have hcomp : (Prod.fst ∘ fun c =>
        (c, match send c with | DetectorCall.ok _ => true | DetectorCall.exn => false))
          = @id Nat := rfl
    simp only [broadcast, List.map_map, hcomp, List.map_id]
  · intro c hc hok
    have h : (c, true)
        = (c, match send c with | .ok _ => true | .exn => false) := by rw [hok]
    rw [h]
    exact List.mem_map_of_mem _ hc

/-- C5 witness: with connections 1, 2, 3 registered and sending to 2
raising, connections 1 and 3 are both still delivered the message. -/
theorem broadcast_attempts_all_witness :
    ((1 : Nat) ∈ [1, 2, 3] ∧ failSecond 1 = DetectorCall.ok () ∧
      (1, true) ∈ broadcast [1, 2, 3] failSecond) ∧
    ((3 : Nat) ∈ [1, 2, 3] ∧ failSecond 3 = DetectorCall.ok () ∧
      (3, true) ∈ broadcast [1, 2, 3] failSecond) ∧
    failSecond 2 = DetectorCall.exn :=
  ⟨⟨by decide, by decide,
    (broadcast_attempts_all [1, 2, 3] failSecond).2 1 (by decide) (by decide)⟩,
   ⟨by decide, by decide,
    (broadcast_attempts_all [1, 2, 3] failSecond).2 3 (by decide) (by decide)⟩,
   by decide⟩

/-- C7 counterexample: a first message carrying the invalid tempo -5 is not
defaulted to 120 — the value is used as-is, so the tempo in use is not
positive. -/
theorem tempo_invalid_counterexample :
    readTempo (some (-5)) = -5 ∧ ¬(0 < readTempo (some (-5))) ∧
    readTempo (some (-5)) ≠ 120 :=
  ⟨rfl, by decide, by decide⟩

/-- C7 amended: the 120 BPM default applies only when the `tempo` key is
absent from the first message; a present value is used unvalidated (so the
tempo in use need not be positive, and tempo 0 raises, ending the session).
The inter-pulse interval is `60 / tempo` seconds: 0.5 at tempo 120 and 1.0
at tempo 60. -/
theorem tempo_default_and_interval :
    readTempo none = 120 ∧ (∀ q, readTempo (some q) = q) ∧
    beat_interval 120 = some (1 / 2) ∧ beat_interval 60 = some 1 :=
  ⟨rfl, fun _ => rfl, by decide, by decide⟩

/-- C9 counterexample: a message whose `type` is unrecognized produces no
outbound message at all — in particular no error-kind response — while the
connection stays open. -/
theorem unknown_type_counterexample :
    (handle_message initialManager (ClientMessage.other (some "bogus"))).2.1 = [] ∧
    (handle_message initialManager (ClientMessage.other (some "bogus"))).2.2 = true :=
  ⟨rfl, rfl⟩

/-- C9 amended: a message whose `type` is neither `frame` nor `ping` is
silently ignored: no response of any kind is sent, the manager state is
unchanged, and the connection stays open with the handler continuing to
await subsequent messages.  (Error-kind responses are sent only for
failures inside `frame` handling.) -/
theorem unknown_type_ignored (st : ManagerState) (t : Option String) :
    handle_message st (ClientMessage.other t) = (st, [], true) :=
  rfl
